import Mathlib

/-!
# Verification of the `als` application scaffolding

Shallow embedding of `src/als/model.py` and `src/als/code_utilities.py`:

* `DataStore` — the observer-pattern application state store holding two
  boolean flags and an ordered observer list.
* `Image` — the wrapper around a multi-dimensional numeric array with
  bayer-pattern and origin metadata.
* `log_wrapped` — the behaviour of the function returned by the `log`
  decorator, with the emitted debug records made explicit as a list of
  strings and exceptions modelled by `Except`.
* `Timer` — the scoped timer context manager, with wall-clock samples
  passed in explicitly as exact rationals (seconds).

Python exceptions are modelled with `Except`; an observer callback is a
function `Nat → Except ε Unit` over observer identities, so a raising
observer is `Except.error`.  Mutation is modelled by explicit state
passing: each setter returns the updated store together with the trace of
observer identities whose `update_according_to_app_state` capability was
invoked (in invocation order) and the propagated exception, if any.
-/

set_option autoImplicit false

namespace Als

universe u v w

/-- Python exception values relevant here: `list.remove` raises
`ValueError` when the element is absent; observers may raise anything,
carried as an opaque tag. -/
inductive PyError where
  | valueError
  | other (tag : Nat)
deriving DecidableEq, Repr

/-! ## `DataStore` (src/als/model.py, lines 12-93) -/

/-- The mutable state of `DataStore.__init__`: `_observers` (insertion
order kept, duplicates permitted), `_scan_in_progress`, and
`_web_server_is_running`, the latter two initialised to `False`.
Observers are identified by `Nat`. -/
structure DataStore where
  observers : List Nat
  scan_in_progress : Bool
  web_server_is_running : Bool
deriving DecidableEq, Repr

/-- `DataStore.__init__`: empty observer list, both flags `False`. -/
def DataStore.init : DataStore :=
  { observers := [], scan_in_progress := false, web_server_is_running := false }

/-- The loop body of `DataStore._notify_observers`: walk the observer list
in order, invoking `beh o` (the observer's
`update_according_to_app_state`).  Returns the identities invoked, in
order, and the first raised exception (which aborts the walk), if any. -/
def notifyLoop {ε : Type u} (beh : Nat → Except ε Unit) : List Nat → List Nat × Option ε
  | [] => ([], none)
  | o :: rest =>
    match beh o with
    | Except.error e => ([o], some e)
    | Except.ok _ =>
      let r := notifyLoop beh rest
      (o :: r.1, r.2)

/-- `DataStore._notify_observers`: notify every currently registered
observer, in registration order. -/
def DataStore.notify_observers {ε : Type u} (s : DataStore) (beh : Nat → Except ε Unit) :
    List Nat × Option ε :=
  notifyLoop beh s.observers

/-- Setter of `DataStore.scan_in_progress`: overwrite the flag
unconditionally, then run `_notify_observers`.  Returns the new store,
the invocation trace and the propagated exception (if an observer
raised). -/
def DataStore.set_scan_in_progress {ε : Type u} (s : DataStore) (beh : Nat → Except ε Unit)
    (in_progress : Bool) : DataStore × List Nat × Option ε :=
  let s2 := { s with scan_in_progress := in_progress }
  (s2, s2.notify_observers beh)

/-- Setter of `DataStore.web_server_is_running`: overwrite the flag
unconditionally, then run `_notify_observers`. -/
def DataStore.set_web_server_is_running {ε : Type u} (s : DataStore) (beh : Nat → Except ε Unit)
    (running : Bool) : DataStore × List Nat × Option ε :=
  let s2 := { s with web_server_is_running := running }
  (s2, s2.notify_observers beh)

/-- `DataStore.add_observer`: `self._observers.append(observer)` — no
duplicate check. -/
def DataStore.add_observer (s : DataStore) (observer : Nat) : DataStore :=
  { s with observers := s.observers ++ [observer] }

/-- Python `list.remove`: delete the first occurrence, or report failure
(`None` here, `ValueError` in Python) when the element is absent. -/
def listRemoveFirst : List Nat → Nat → Option (List Nat)
  | [], _ => none
  | x :: xs, o =>
    if x = o then some xs
    else (listRemoveFirst xs o).map (fun l => x :: l)

/-- `DataStore.remove_observer`: `self._observers.remove(observer)`,
raising `ValueError` when the observer is not in the list. -/
def DataStore.remove_observer (s : DataStore) (observer : Nat) : Except PyError DataStore :=
  match listRemoveFirst s.observers observer with
  | none => Except.error PyError.valueError
  | some l => Except.ok { s with observers := l }

/-! ## `Image` (src/als/model.py, lines 99-194) -/

/-- The aspects of a numpy `ndarray` the shown code consults: its `shape`
and its `dtype.name`.  Element values are never inspected by any embedded
operation. -/
structure NDArray where
  shape : List Nat
  dtypeName : String
deriving DecidableEq, Repr

/-- The state of an `Image`: `_data`, `_bayer_pattern` (`None` modelled
as `Option.none`) and `_origin`. -/
structure Image where
  data : NDArray
  bayer_pattern : Option String
  origin : String
deriving DecidableEq, Repr

/-- `Image.__init__`: constructed from data only; `_bayer_pattern = None`
and `_origin = "UNDEFINED"`. -/
def Image.init (data : NDArray) : Image :=
  { data := data, bayer_pattern := none, origin := "UNDEFINED" }

/-- Setter of `Image.bayer_pattern`. -/
def Image.set_bayer_pattern (i : Image) (bayer_pattern : Option String) : Image :=
  { i with bayer_pattern := bayer_pattern }

/-- Setter of `Image.data`. -/
def Image.set_data (i : Image) (data : NDArray) : Image :=
  { i with data := data }

/-- Setter of `Image.origin`. -/
def Image.set_origin (i : Image) (origin : String) : Image :=
  { i with origin := origin }

/-- `Image.needs_debayering`: `self._bayer_pattern is not None`. -/
def Image.needs_debayering (i : Image) : Bool :=
  i.bayer_pattern.isSome

/-- `Image.is_color`: `len(self._data.shape) > 2`. -/
def Image.is_color (i : Image) : Bool :=
  2 < i.data.shape.length

/-- Python `str(bool)` as used in the f-string of `__repr__`. -/
def pyBool : Bool → String
  | true => "True"
  | false => "False"

/-- Python string interpolation of `self.bayer_pattern` (`None` prints as
`"None"`). -/
def pyOptStr : Option String → String
  | none => "None"
  | some s => s

/-- The `Width * Height` chunk of `Image.__repr__`: the f-string
interpolates `self._data.shape[0]` then `self._data.shape[1]`, in that
order.  (Out-of-range access cannot happen for the shapes the claims
consider; `getD` supplies an irrelevant default.) -/
def Image.reprSizeChunk (i : Image) : String :=
  toString (i.data.shape.getD 0 0) ++ " * " ++ toString (i.data.shape.getD 1 0)

/-- `Image.__repr__`: the diagnostic textual representation. -/
def Image.reprStr (i : Image) : String :=
  "Image(\n" ++
  "Color = " ++ pyBool i.is_color ++ ",\n" ++
  "Needs Debayer = " ++ pyBool i.needs_debayering ++ ",\n" ++
  "Bayer Pattern = " ++ pyOptStr i.bayer_pattern ++ ",\n" ++
  "Width * Height = " ++ i.reprSizeChunk ++ ",\n" ++
  "Data type = " ++ i.data.dtypeName ++ ",\n" ++
  "Origin = " ++ i.origin ++ ")"

/-! ## `code_utilities.py`: `log`, `Timer`, `AlsException` -/

/-- Left-pad the fractional part to exactly three digits, as `%0.3f`
does. -/
def pad3 (n : Nat) : String :=
  if n < 10 then "00" ++ toString n
  else if n < 100 then "0" ++ toString n
  else toString n

/-- Round a rational to the nearest integer (half away from zero for
nonnegative inputs), written with the executable `Rat.floor` so that
concrete instances evaluate; `roundQ_eq_round` identifies it with
Mathlib's standard `round`. -/
def roundQ (q : ℚ) : ℤ :=
  Rat.floor (q + 1 / 2)

lemma roundQ_eq_round (q : ℚ) : roundQ q = round q := by
  rw [round_eq]; rfl

/-- Fixed-point formatting with exactly three decimal digits, the
behaviour of Python `"%0.3f" % x` / `f"{x:0.3f}"` on the exact value:
round `x` to the nearest thousandth (standard rounding) and print it with
three digits after the point.  Time is modelled by exact rationals, so no
binary floating-point artefacts arise. -/
def formatFixed3 (q : ℚ) : String :=
  let n : ℤ := roundQ (q * 1000)
  let sign := if n < 0 then "-" else ""
  let m : ℕ := n.natAbs
  sign ++ toString (m / 1000) ++ "." ++ pad3 (m % 1000)

/-- The record of debug log lines emitted by the `wrapped` closure of the
`log` decorator, in emission order. -/
abbrev LogRecords := List String

/-- The body of `wrapped` inside `log` (src/als/code_utilities.py, lines
18-27): emit the "called" record, invoke the wrapped callable, and — only
on normal return — emit the "returned" record and hand back the result
unchanged.  A raised exception propagates unchanged and skips the second
record.  `printArgs`/`printRes` stand for Python `str` on the argument
tuple and the result; `startT`/`endT` are the two `time()` samples in
seconds. -/
def log_wrapped {α : Type u} {β : Type v} {ε : Type w} (qualname : String)
    (printArgs : α → String) (printRes : β → String) (startT endT : ℚ)
    (func : α → Except ε β) (args : α) : Except ε β × LogRecords :=
  let before := [qualname ++ "() called with : " ++ printArgs args]
  match func args with
  | Except.error e => (Except.error e, before)
  | Except.ok result =>
    (Except.ok result,
      before ++ [qualname ++ "() returned " ++ printRes result ++ " in " ++
        formatFixed3 ((endT - startT) * 1000) ++ " ms"])

/-- `Timer.__enter__`: record the start timestamp (seconds). -/
structure Timer where
  start : ℚ
deriving DecidableEq, Repr

/-- The attributes available after `Timer.__exit__`. -/
structure TimerDone where
  start : ℚ
  stop : ℚ
  elapsed_in_milli : ℚ
  elapsed_in_milli_as_str : String
deriving DecidableEq, Repr

/-- `Timer.__enter__`. -/
def Timer.enter (startT : ℚ) : Timer :=
  { start := startT }

/-- `Timer.__exit__`: record the end timestamp, compute
`elapsed_in_milli = (end - start) * 1000` and its `"%0.3f"` rendering.
`__exit__` takes the exception triple and ignores it (`*args`), so it
runs identically whether the block completed or failed. -/
def Timer.exitTimer (t : Timer) (endT : ℚ) : TimerDone :=
  let e := (endT - t.start) * 1000
  { start := t.start, stop := endT, elapsed_in_milli := e,
    elapsed_in_milli_as_str := formatFixed3 e }

/-- A `with Timer() as t: block` execution: `__enter__` at `startT`, the
block's outcome (normal value or exception), then `__exit__` at `endT` —
run in every case, before a block exception propagates. -/
def withTimer {α : Type u} {ε : Type v} (startT endT : ℚ) (block : Except ε α) :
    Except ε α × TimerDone :=
  let t := Timer.enter startT
  let td := t.exitTimer endT
  (block, td)

/-- `AlsException`: a message and a details payload, both required at
construction. -/
structure AlsException where
  message : String
  details : String
deriving DecidableEq, Repr

/-! ## Helper lemmas -/

lemma notifyLoop_all_ok {ε : Type u} (beh : Nat → Except ε Unit) (l : List Nat)
    (h : ∀ o ∈ l, beh o = Except.ok ()) : notifyLoop beh l = (l, none) := by
  induction l with
  | nil => rfl
  | cons x xs ih =>
    have hx : beh x = Except.ok () := h x (by simp)
    have ih2 := ih (fun o ho => h o (by simp [ho]))
    simp [notifyLoop, hx, ih2]

lemma mem_notifyLoop_trace {ε : Type u} (beh : Nat → Except ε Unit) (l : List Nat) (x : Nat)
    (hx : x ∈ (notifyLoop beh l).1) : x ∈ l := by
  induction l with
  | nil => simp [notifyLoop] at hx
  | cons y ys ih =>
    simp only [notifyLoop] at hx
    cases hbeh : beh y with
    | error e =>
      rw [hbeh] at hx
      simp only [List.mem_singleton] at hx
      simp [hx]
    | ok u =>
      rw [hbeh] at hx
      simp only [List.mem_cons] at hx
      rcases hx with h | h
      · simp [h]
      · exact List.mem_cons_of_mem _ (ih h)

lemma notifyLoop_first_error {ε : Type u} (beh : Nat → Except ε Unit)
    (pre post : List Nat) (bad : Nat) (e : ε)
    (hpre : ∀ o ∈ pre, beh o = Except.ok ()) (hbad : beh bad = Except.error e) :
    notifyLoop beh (pre ++ bad :: post) = (pre ++ [bad], some e) := by
  induction pre with
  | nil => simp [notifyLoop, hbad]
  | cons x xs ih =>
    have hx : beh x = Except.ok () := hpre x (by simp)
    have ih2 := ih (fun o ho => hpre o (by simp [ho]))
    simp [notifyLoop, hx, ih2]

lemma listRemoveFirst_eq_none_iff (l : List Nat) (o : Nat) :
    listRemoveFirst l o = none ↔ o ∉ l := by
  induction l with
  | nil => simp [listRemoveFirst]
  | cons x xs ih =>
    by_cases hx : x = o
    · subst hx; simp [listRemoveFirst]
    · constructor
      · intro h
        simp only [listRemoveFirst, if_neg hx] at h
        cases hrm : listRemoveFirst xs o with
        | none =>
          have hno : o ∉ xs := ih.mp hrm
          simp only [List.mem_cons]
          rintro (h1 | h1)
          · exact hx h1.symm
          · exact hno h1
        | some l2 =>
          rw [hrm] at h
          simp at h
      · intro h
        have hno : o ∉ xs := fun hmem => h (List.mem_cons_of_mem _ hmem)
        simp [listRemoveFirst, if_neg hx, ih.mpr hno]

lemma listRemoveFirst_of_mem (l : List Nat) (o : Nat) (h : o ∈ l) :
    ∃ l1 l2, l = l1 ++ o :: l2 ∧ o ∉ l1 ∧ listRemoveFirst l o = some (l1 ++ l2) := by
  induction l with
  | nil => simp at h
  | cons x xs ih =>
    by_cases hx : x = o
    · subst hx
      exact ⟨[], xs, rfl, by simp, by simp [listRemoveFirst]⟩
    · have hmem : o ∈ xs := by
        rcases List.mem_cons.mp h with h1 | h1
        · exact absurd h1.symm hx
        · exact h1
      obtain ⟨l1, l2, heq, hnot, hrm⟩ := ih hmem
      refine ⟨x :: l1, l2, by simp [heq], ?_, ?_⟩
      · simp only [List.mem_cons]
        intro hc
        rcases hc with h1 | h1
        · exact hx h1.symm
        · exact hnot h1
      · simp [listRemoveFirst, if_neg hx, hrm]

lemma listRemoveFirst_count_one (l : List Nat) (o : Nat) (h : l.count o = 1) :
    ∃ l2, listRemoveFirst l o = some l2 ∧ o ∉ l2 := by
  induction l with
  | nil => simp at h
  | cons x xs ih =>
    by_cases hx : x = o
    · subst hx
      rw [List.count_cons_self] at h
      have hz : xs.count x = 0 := by omega
      exact ⟨xs, by simp [listRemoveFirst], List.count_eq_zero.mp hz⟩
    · rw [List.count_cons_of_ne (fun hc => hx hc.symm)] at h
      obtain ⟨l2, hrm, hnot⟩ := ih h
      refine ⟨x :: l2, by simp [listRemoveFirst, if_neg hx, hrm], ?_⟩
      simp only [List.mem_cons]
      intro hc
      rcases hc with h1 | h1
      · exact hx h1.symm
      · exact hnot h1

/-! ## Claim theorems -/

/-- C1: for every set of `scan_in_progress` or `web_server_is_running`
(to any boolean, including one equal to the current value — `v` is fully
general here and the witness instantiates it with the current value), the
stored flag is overwritten with the new value and every observer in the
list has `update_according_to_app_state` invoked exactly once, in
registration order, synchronously within the setter call (the invocation
trace is exactly the observer list). -/
theorem claim_C1_set_flag_notifies_each_once_in_order {ε : Type u} (s : DataStore)
    (v : Bool) (beh : Nat → Except ε Unit)
    (hok : ∀ o ∈ s.observers, beh o = Except.ok ()) :
    (s.set_scan_in_progress beh v).1.scan_in_progress = v ∧
    (s.set_scan_in_progress beh v).2.1 = s.observers ∧
    (s.set_scan_in_progress beh v).2.2 = none ∧
    (s.set_web_server_is_running beh v).1.web_server_is_running = v ∧
    (s.set_web_server_is_running beh v).2.1 = s.observers ∧
    (s.set_web_server_is_running beh v).2.2 = none := by
  have h := notifyLoop_all_ok beh s.observers hok
  refine ⟨rfl, ?_, ?_, rfl, ?_, ?_⟩ <;>
    simp [DataStore.set_scan_in_progress, DataStore.set_web_server_is_running,
      DataStore.notify_observers, h]

/-- Witness for C1: three observers, all well-behaved, set
`scan_in_progress` to its current value `false`: the flag is stored and
every observer is notified once, in order. -/
theorem claim_C1_witness :
    ((⟨[1, 2, 3], false, false⟩ : DataStore).set_scan_in_progress
        (fun _ => Except.ok () : Nat → Except PyError Unit) false).1.scan_in_progress = false ∧
    ((⟨[1, 2, 3], false, false⟩ : DataStore).set_scan_in_progress
        (fun _ => Except.ok () : Nat → Except PyError Unit) false).2.1 = [1, 2, 3] ∧
    ((⟨[1, 2, 3], false, false⟩ : DataStore).set_scan_in_progress
        (fun _ => Except.ok () : Nat → Except PyError Unit) false).2.2 = none ∧
    ((⟨[1, 2, 3], false, false⟩ : DataStore).set_web_server_is_running
        (fun _ => Except.ok () : Nat → Except PyError Unit) false).1.web_server_is_running = false ∧
    ((⟨[1, 2, 3], false, false⟩ : DataStore).set_web_server_is_running
        (fun _ => Except.ok () : Nat → Except PyError Unit) false).2.1 = [1, 2, 3] ∧
    ((⟨[1, 2, 3], false, false⟩ : DataStore).set_web_server_is_running
        (fun _ => Except.ok () : Nat → Except PyError Unit) false).2.2 = none :=
  claim_C1_set_flag_notifies_each_once_in_order ⟨[1, 2, 3], false, false⟩ false
    (fun _ => Except.ok ()) (fun _ _ => rfl)

/-- C2 counterexample: the claim fails when an observer is registered
twice.  Observer `0` is added twice, `remove_observer 0` succeeds
(removing only the first entry), yet a subsequent flag-set still notifies
observer `0`. -/
theorem claim_C2_counterexample_duplicate_still_notified :
    ∃ s3 : DataStore,
      ((DataStore.init.add_observer 0).add_observer 0).remove_observer 0 = Except.ok s3 ∧
      0 ∈ (s3.set_scan_in_progress
        (fun _ => Except.ok () : Nat → Except PyError Unit) true).2.1 :=
  ⟨⟨[0], false, false⟩, rfl, by decide⟩

/-- C2 as amended: after a successful `remove_observer(observer)` the
first matching entry is removed; provided the observer was registered
exactly once, it is no longer notified by any subsequent flag-set on that
store (with duplicate registrations, remaining entries are still
notified). -/
theorem claim_C2_removed_unique_observer_not_notified {ε : Type u} (s : DataStore)
    (o : Nat) (v : Bool) (beh : Nat → Except ε Unit)
    (h : s.observers.count o = 1) :
    ∃ s2, s.remove_observer o = Except.ok s2 ∧
      o ∉ (s2.set_scan_in_progress beh v).2.1 ∧
      o ∉ (s2.set_web_server_is_running beh v).2.1 := by
  obtain ⟨l2, hrm, hno⟩ := listRemoveFirst_count_one s.observers o h
  refine ⟨{ s with observers := l2 }, ?_, ?_, ?_⟩
  · simp [DataStore.remove_observer, hrm]
  · intro hc
    exact hno (mem_notifyLoop_trace beh l2 o hc)
  · intro hc
    exact hno (mem_notifyLoop_trace beh l2 o hc)

/-- Witness for C2 (amended): observer `7` registered once; removing it
succeeds and neither setter notifies it afterwards. -/
theorem claim_C2_removed_unique_observer_not_notified_witness :
    ∃ s2, (⟨[7], false, false⟩ : DataStore).remove_observer 7 = Except.ok s2 ∧
      7 ∉ (s2.set_scan_in_progress
        (fun _ => Except.ok () : Nat → Except PyError Unit) true).2.1 ∧
      7 ∉ (s2.set_web_server_is_running
        (fun _ => Except.ok () : Nat → Except PyError Unit) true).2.1 :=
  claim_C2_removed_unique_observer_not_notified ⟨[7], false, false⟩ 7 true
    (fun _ => Except.ok ()) (by decide)

/-- C3: `remove_observer(observer)` raises (`ValueError`, surfaced to the
caller) if and only if the observer is not currently in the list; when it
is present, the call removes exactly the first matching entry and
succeeds. -/
theorem claim_C3_remove_observer_error_iff_absent (s : DataStore) (o : Nat) :
    ((∃ e, s.remove_observer o = Except.error e) ↔ o ∉ s.observers) ∧
    (o ∈ s.observers →
      ∃ l1 l2, s.observers = l1 ++ o :: l2 ∧ o ∉ l1 ∧
        s.remove_observer o = Except.ok { s with observers := l1 ++ l2 }) := by
  constructor
  · constructor
    · rintro ⟨e, he⟩
      cases hrm : listRemoveFirst s.observers o with
      | none => exact (listRemoveFirst_eq_none_iff s.observers o).mp hrm
      | some l =>
        simp [DataStore.remove_observer, hrm] at he
    · intro hno
      refine ⟨PyError.valueError, ?_⟩
      simp [DataStore.remove_observer, (listRemoveFirst_eq_none_iff s.observers o).mpr hno]
  · intro hmem
    obtain ⟨l1, l2, heq, hno, hrm⟩ := listRemoveFirst_of_mem s.observers o hmem
    exact ⟨l1, l2, heq, hno, by simp [DataStore.remove_observer, hrm]⟩

/-- Witness for C3: on the store with observers `[4, 9]`, removing `5`
raises and removing `9` removes exactly that entry. -/
theorem claim_C3_remove_observer_error_iff_absent_witness :
    (((∃ e, (⟨[4, 9], false, false⟩ : DataStore).remove_observer 5 = Except.error e) ↔
        5 ∉ [4, 9]) ∧
      (5 ∈ ([4, 9] : List Nat) →
        ∃ l1 l2, ([4, 9] : List Nat) = l1 ++ 5 :: l2 ∧ 5 ∉ l1 ∧
          (⟨[4, 9], false, false⟩ : DataStore).remove_observer 5 =
            Except.ok ⟨l1 ++ l2, false, false⟩)) ∧
    (9 ∈ ([4, 9] : List Nat) →
      ∃ l1 l2, ([4, 9] : List Nat) = l1 ++ 9 :: l2 ∧ 9 ∉ l1 ∧
        (⟨[4, 9], false, false⟩ : DataStore).remove_observer 9 =
          Except.ok ⟨l1 ++ l2, false, false⟩) :=
  ⟨claim_C3_remove_observer_error_iff_absent ⟨[4, 9], false, false⟩ 5,
   (claim_C3_remove_observer_error_iff_absent ⟨[4, 9], false, false⟩ 9).2⟩

/-- C9: if an observer raises during the notification pass of either
setter, the flag keeps the new value (no rollback), observers after the
(first) failing one are not notified — the trace is exactly the prior
observers followed by the failing one — and the exception propagates to
the setter's caller. -/
theorem claim_C9_failing_observer_aborts_pass_keeps_flag {ε : Type u} (s : DataStore)
    (v : Bool) (beh : Nat → Except ε Unit) (pre post : List Nat) (bad : Nat) (e : ε)
    (hobs : s.observers = pre ++ bad :: post)
    (hpre : ∀ o ∈ pre, beh o = Except.ok ())
    (hbad : beh bad = Except.error e) :
    ((s.set_scan_in_progress beh v).1.scan_in_progress = v ∧
     (s.set_scan_in_progress beh v).2.1 = pre ++ [bad] ∧
     (s.set_scan_in_progress beh v).2.2 = some e) ∧
    ((s.set_web_server_is_running beh v).1.web_server_is_running = v ∧
     (s.set_web_server_is_running beh v).2.1 = pre ++ [bad] ∧
     (s.set_web_server_is_running beh v).2.2 = some e) := by
  have h := notifyLoop_first_error beh pre post bad e hpre hbad
  refine ⟨⟨rfl, ?_, ?_⟩, ⟨rfl, ?_, ?_⟩⟩ <;>
    simp [DataStore.set_scan_in_progress, DataStore.set_web_server_is_running,
      DataStore.notify_observers, hobs, h]

/-- Witness for C9: observers `[1, 2, 3]` where observer `2` raises:
setting the flag to `true` stores `true`, notifies `[1, 2]` only, and
the exception surfaces. -/
theorem claim_C9_failing_observer_aborts_pass_keeps_flag_witness :
    (((⟨[1, 2, 3], false, false⟩ : DataStore).set_scan_in_progress
        (fun o => if o = 2 then Except.error (PyError.other 0) else Except.ok ())
        true).1.scan_in_progress = true ∧
      ((⟨[1, 2, 3], false, false⟩ : DataStore).set_scan_in_progress
        (fun o => if o = 2 then Except.error (PyError.other 0) else Except.ok ())
        true).2.1 = [1] ++ [2] ∧
      ((⟨[1, 2, 3], false, false⟩ : DataStore).set_scan_in_progress
        (fun o => if o = 2 then Except.error (PyError.other 0) else Except.ok ())
        true).2.2 = some (PyError.other 0)) ∧
    (((⟨[1, 2, 3], false, false⟩ : DataStore).set_web_server_is_running
        (fun o => if o = 2 then Except.error (PyError.other 0) else Except.ok ())
        true).1.web_server_is_running = true ∧
      ((⟨[1, 2, 3], false, false⟩ : DataStore).set_web_server_is_running
        (fun o => if o = 2 then Except.error (PyError.other 0) else Except.ok ())
        true).2.1 = [1] ++ [2] ∧
      ((⟨[1, 2, 3], false, false⟩ : DataStore).set_web_server_is_running
        (fun o => if o = 2 then Except.error (PyError.other 0) else Except.ok ())
        true).2.2 = some (PyError.other 0)) :=
  claim_C9_failing_observer_aborts_pass_keeps_flag ⟨[1, 2, 3], false, false⟩ true
    (fun o => if o = 2 then Except.error (PyError.other 0) else Except.ok ())
    [1] [3] 2 (PyError.other 0) rfl
    (by intro o ho; simp only [List.mem_singleton] at ho; subst ho; rfl) rfl

/-- C10: each operation touches only its own field — the setters leave
the other flag and the observer list unchanged, and
`add_observer`/`remove_observer` leave both flags unchanged. -/
theorem claim_C10_frame_conditions {ε : Type u} (s : DataStore) (v : Bool)
    (beh : Nat → Except ε Unit) (o : Nat) :
    (s.set_scan_in_progress beh v).1.web_server_is_running = s.web_server_is_running ∧
    (s.set_scan_in_progress beh v).1.observers = s.observers ∧
    (s.set_web_server_is_running beh v).1.scan_in_progress = s.scan_in_progress ∧
    (s.set_web_server_is_running beh v).1.observers = s.observers ∧
    (s.add_observer o).scan_in_progress = s.scan_in_progress ∧
    (s.add_observer o).web_server_is_running = s.web_server_is_running ∧
    (∀ s2, s.remove_observer o = Except.ok s2 →
      s2.scan_in_progress = s.scan_in_progress ∧
      s2.web_server_is_running = s.web_server_is_running) := by
  refine ⟨rfl, rfl, rfl, rfl, rfl, rfl, ?_⟩
  intro s2 h
  cases hrm : listRemoveFirst s.observers o with
  | none => simp [DataStore.remove_observer, hrm] at h
  | some l =>
    simp only [DataStore.remove_observer, hrm, Except.ok.injEq] at h
    subst h
    exact ⟨rfl, rfl⟩

/-- Witness for C10: instantiated on the store with observers `[6]` and
both flags `true`; removing `6` keeps both flags. -/
theorem claim_C10_frame_conditions_witness :
    ((⟨[6], true, true⟩ : DataStore).set_scan_in_progress
        (fun _ => Except.ok () : Nat → Except PyError Unit) false).1.web_server_is_running = true ∧
    ((⟨[6], true, true⟩ : DataStore).set_scan_in_progress
        (fun _ => Except.ok () : Nat → Except PyError Unit) false).1.observers = [6] ∧
    ((⟨[6], true, true⟩ : DataStore).set_web_server_is_running
        (fun _ => Except.ok () : Nat → Except PyError Unit) false).1.scan_in_progress = true ∧
    ((⟨[6], true, true⟩ : DataStore).set_web_server_is_running
        (fun _ => Except.ok () : Nat → Except PyError Unit) false).1.observers = [6] ∧
    ((⟨[6], true, true⟩ : DataStore).add_observer 8).scan_in_progress = true ∧
    ((⟨[6], true, true⟩ : DataStore).add_observer 8).web_server_is_running = true ∧
    (∀ s2, (⟨[6], true, true⟩ : DataStore).remove_observer 8 = Except.ok s2 →
      s2.scan_in_progress = true ∧ s2.web_server_is_running = true) :=
  claim_C10_frame_conditions ⟨[6], true, true⟩ false
    (fun _ => Except.ok ()) 8

/-- C4: the callable returned by the `log` decorator returns exactly the
wrapped callable's value on normal return; on failure it re-raises the
same failure unchanged (the result component equals `func args` in both
cases, so type and payload are preserved with no wrapping) and emits only
the "called" record, never the "returned" one. -/
theorem claim_C4_log_wrapper_transparent {α : Type u} {β : Type v} {ε : Type w}
    (qualname : String) (printArgs : α → String) (printRes : β → String)
    (startT endT : ℚ) (func : α → Except ε β) (args : α) (e : ε) :
    (log_wrapped qualname printArgs printRes startT endT func args).1 = func args ∧
    (func args = Except.error e →
      (log_wrapped qualname printArgs printRes startT endT func args).2 =
        [qualname ++ "() called with : " ++ printArgs args]) := by
  cases hf : func args with
  | error e2 =>
    refine ⟨?_, fun _ => ?_⟩ <;> simp [log_wrapped, hf]
  | ok r =>
    refine ⟨by simp [log_wrapped, hf], fun hc => ?_⟩
    exact absurd hc (by simp)

/-- Witness for C4: a wrapped callable that raises; the wrapper hands the
failure back unchanged and the log holds only the "called" record. -/
theorem claim_C4_log_wrapper_transparent_witness :
    (log_wrapped "f" (fun n : Nat => toString n) (fun n : Nat => toString n) 0 1
        (fun _ => Except.error PyError.valueError) 5).1 =
      (fun _ : Nat => Except.error (α := Nat) PyError.valueError) 5 ∧
    ((fun _ : Nat => Except.error (α := Nat) PyError.valueError) 5 =
        Except.error PyError.valueError →
      (log_wrapped "f" (fun n : Nat => toString n) (fun n : Nat => toString n) 0 1
          (fun _ => Except.error PyError.valueError) 5).2 =
        ["f" ++ "() called with : " ++ toString (5 : Nat)]) :=
  claim_C4_log_wrapper_transparent "f" (fun n : Nat => toString n)
    (fun n : Nat => toString n) 0 1 (fun _ => Except.error PyError.valueError) 5
    PyError.valueError

/-- C5: `needs_debayering()` is true iff `bayer_pattern` holds a present
(non-`None`) value; setting it to a value and back to `None` yields
`false` again, and a freshly constructed `Image` yields `false`. -/
theorem claim_C5_needs_debayering_iff_pattern_present (i : Image) (d : NDArray)
    (b : String) :
    (i.needs_debayering = true ↔ i.bayer_pattern ≠ none) ∧
    ((i.set_bayer_pattern (some b)).set_bayer_pattern none).needs_debayering = false ∧
    (Image.init d).needs_debayering = false := by
  refine ⟨?_, rfl, rfl⟩
  simp [Image.needs_debayering, Option.isSome_iff_ne_none]

/-- Witness for C5: a concrete image whose pattern is set to `"RGGB"` and
back to `None`. -/
theorem claim_C5_needs_debayering_iff_pattern_present_witness :
    ((Image.init ⟨[4, 5], "uint16"⟩).needs_debayering = true ↔
      (Image.init ⟨[4, 5], "uint16"⟩).bayer_pattern ≠ none) ∧
    (((Image.init ⟨[4, 5], "uint16"⟩).set_bayer_pattern
        (some "RGGB")).set_bayer_pattern none).needs_debayering = false ∧
    (Image.init ⟨[4, 5], "uint16"⟩).needs_debayering = false :=
  claim_C5_needs_debayering_iff_pattern_present (Image.init ⟨[4, 5], "uint16"⟩)
    ⟨[4, 5], "uint16"⟩ "RGGB"

/-- C6: `is_color()` is true iff the data array has more than 2
dimensions; shape `(H, W)` gives `false` and shape `(H, W, C)` with
`C ≥ 1` gives `true`. -/
theorem claim_C6_is_color_iff_more_than_two_dims (i : Image) (hgt wdt chn : Nat)
    (dt : String) (hc : 1 ≤ chn) :
    (i.is_color = true ↔ 2 < i.data.shape.length) ∧
    (Image.init { shape := [hgt, wdt], dtypeName := dt }).is_color = false ∧
    (Image.init { shape := [hgt, wdt, chn], dtypeName := dt }).is_color = true := by
  exact ⟨by simp [Image.is_color], rfl, rfl⟩

/-- Witness for C6: shapes `[2, 3]` and `[2, 3, 1]`. -/
theorem claim_C6_is_color_iff_more_than_two_dims_witness :
    ((Image.init ⟨[2, 3], "uint16"⟩).is_color = true ↔
      2 < (Image.init ⟨[2, 3], "uint16"⟩).data.shape.length) ∧
    (Image.init { shape := [2, 3], dtypeName := "uint16" }).is_color = false ∧
    (Image.init { shape := [2, 3, 1], dtypeName := "uint16" }).is_color = true :=
  claim_C6_is_color_iff_more_than_two_dims (Image.init ⟨[2, 3], "uint16"⟩) 2 3 1
    "uint16" (by decide)

/-- C7 counterexample: for the 2 × 3 array (`H = 2`, `W = 3`) the
`Width * Height` field of `__repr__` interpolates `shape[0]` first, so it
reads `"2 * 3"` — the value in the width position is the FIRST dimension
`H = 2`, not the second dimension `W = 3` as the claim states. -/
theorem claim_C7_counterexample_width_slot_holds_first_dim :
    (Image.init { shape := [2, 3], dtypeName := "uint16" }).reprSizeChunk = "2 * 3" ∧
    (Image.init { shape := [2, 3], dtypeName := "uint16" }).reprSizeChunk ≠
      toString (3 : Nat) ++ " * " ++ toString (2 : Nat) :=
  ⟨rfl, by decide⟩

/-- C7 as amended: in the textual representation the value in the width
position is the array's FIRST dimension and the value in the height
position is the SECOND dimension — for shape `(H, W)` the representation
embeds the chunk `"H * W"`. -/
theorem claim_C7_repr_size_field_is_dim0_then_dim1 (i : Image) (hgt wdt : Nat)
    (hshape : i.data.shape = [hgt, wdt]) :
    i.reprSizeChunk = toString hgt ++ " * " ++ toString wdt ∧
    ∃ s1 s2, i.reprStr = s1 ++ i.reprSizeChunk ++ s2 := by
  constructor
  · simp [Image.reprSizeChunk, hshape]
  · refine ⟨"Image(\n" ++ "Color = " ++ pyBool i.is_color ++ ",\n" ++
      "Needs Debayer = " ++ pyBool i.needs_debayering ++ ",\n" ++
      "Bayer Pattern = " ++ pyOptStr i.bayer_pattern ++ ",\n" ++
      "Width * Height = ",
      ",\n" ++ "Data type = " ++ i.data.dtypeName ++ ",\n" ++
      "Origin = " ++ i.origin ++ ")", ?_⟩
    simp [Image.reprStr, String.append_assoc]

/-- Witness for C7 (amended): the 2 × 3 image prints `"2 * 3"` inside its
representation. -/
theorem claim_C7_repr_size_field_is_dim0_then_dim1_witness :
    (Image.init ⟨[2, 3], "uint16"⟩).reprSizeChunk =
      toString (2 : Nat) ++ " * " ++ toString (3 : Nat) ∧
    ∃ s1 s2, (Image.init ⟨[2, 3], "uint16"⟩).reprStr =
      s1 ++ (Image.init ⟨[2, 3], "uint16"⟩).reprSizeChunk ++ s2 :=
  claim_C7_repr_size_field_is_dim0_then_dim1 (Image.init ⟨[2, 3], "uint16"⟩) 2 3 rfl

/-- C8: on release of a `Timer` block — whether the block completed
normally or raised — `elapsed_in_milli` equals `(end − start) * 1000` and
`elapsed_in_milli_as_str` is that value formatted with exactly 3 decimal
digits under standard rounding (`formatFixed3`, equal to Mathlib `round`
by `roundQ_eq_round`); a failing block yields the very same timing record
as a normal one, and a measured interval of 12.3456 ms renders as
`"12.346"`. -/
theorem claim_C8_timer_elapsed_and_rendering {α : Type u} {ε : Type v}
    (startT endT : ℚ) (block : Except ε α) (e : ε) :
    (withTimer startT endT block).2.elapsed_in_milli = (endT - startT) * 1000 ∧
    (withTimer startT endT block).2.elapsed_in_milli_as_str =
      formatFixed3 ((endT - startT) * 1000) ∧
    (withTimer startT endT (Except.error e : Except ε α)).2 =
      (withTimer startT endT block).2 ∧
    (withTimer (0 : ℚ) ((123456 : ℚ) / 10000000) block).2.elapsed_in_milli_as_str =
      "12.346" := by
  refine ⟨rfl, rfl, rfl, ?_⟩
  show formatFixed3 (((123456 : ℚ) / 10000000 - 0) * 1000) = "12.346"
  have hq : (((123456 : ℚ) / 10000000 - 0) * 1000) = (123456 : ℚ) / 10000 := by
    norm_num
  rw [hq]
  have h2 : roundQ ((123456 : ℚ) / 10000 * 1000) = 12346 := by
    rw [roundQ_eq_round, round_eq]
    have h1 : ((123456 : ℚ) / 10000 * 1000 + 1 / 2) =
        ((123461 : ℤ) : ℚ) / ((10 : ℕ) : ℚ) := by norm_num
    rw [h1, Rat.floor_intCast_div_natCast]
    decide
  simp only [formatFixed3, h2]
  decide

end Als
